import Mathlib

/-!
Verification of the avatar-movement core of the my-metaverse repository:
a shallow embedding of `CollisionSystem.checkCollision` (src/core/CollisionSystem.ts)
and of the two `Avatar.update` variants (src/core/Avatar.ts), with theorems
checking the natural-language specification against the code.

Numbers are modelled as real numbers.  THREE.js vector operations mutate in
place and return `this`; the embedding tracks that aliasing explicitly: every
in-place write to a vector cell becomes a rebinding of the corresponding
`let`, so expressions such as `forward.multiplyScalar(s)` leave the scaled
vector behind for later reads, exactly as the source does.  Wall-clock reads
(`performance.now() / 1000`) become an explicit `now` parameter, and the
camera direction becomes an explicit input vector.  Presentation-only state
(shadow mesh, dust particles, material colour, crouch scaling of the mesh)
is not part of the model; no claim mentions it.
-/

open scoped Classical

noncomputable section

namespace Three

/-- THREE.Vector3: a triple of real coordinates. -/
@[ext] structure Vector3 where
  x : ℝ
  y : ℝ
  z : ℝ

namespace Vector3

instance : Zero Vector3 := ⟨⟨0, 0, 0⟩⟩

instance : Add Vector3 := ⟨fun a b => ⟨a.x + b.x, a.y + b.y, a.z + b.z⟩⟩

instance : Sub Vector3 := ⟨fun a b => ⟨a.x - b.x, a.y - b.y, a.z - b.z⟩⟩

instance : SMul ℝ Vector3 := ⟨fun s a => ⟨s * a.x, s * a.y, s * a.z⟩⟩

@[simp] theorem zero_x : (0 : Vector3).x = 0 := rfl

@[simp] theorem zero_y : (0 : Vector3).y = 0 := rfl

@[simp] theorem zero_z : (0 : Vector3).z = 0 := rfl

@[simp] theorem add_x (a b : Vector3) : (a + b).x = a.x + b.x := rfl

@[simp] theorem add_y (a b : Vector3) : (a + b).y = a.y + b.y := rfl

@[simp] theorem add_z (a b : Vector3) : (a + b).z = a.z + b.z := rfl

@[simp] theorem sub_x (a b : Vector3) : (a - b).x = a.x - b.x := rfl

@[simp] theorem sub_y (a b : Vector3) : (a - b).y = a.y - b.y := rfl

@[simp] theorem sub_z (a b : Vector3) : (a - b).z = a.z - b.z := rfl

@[simp] theorem smul_x (s : ℝ) (a : Vector3) : (s • a).x = s * a.x := rfl

@[simp] theorem smul_y (s : ℝ) (a : Vector3) : (s • a).y = s * a.y := rfl

@[simp] theorem smul_z (s : ℝ) (a : Vector3) : (s • a).z = s * a.z := rfl

@[simp] theorem add_zero_right (a : Vector3) : a + 0 = a := by
  ext <;> simp

@[simp] theorem add_zero_left (a : Vector3) : 0 + a = a := by
  ext <;> simp

@[simp] theorem smul_zero_vec (s : ℝ) : s • (0 : Vector3) = 0 := by
  ext <;> simp

/-- THREE.Vector3.dot. -/
def dot (a b : Vector3) : ℝ := a.x * b.x + a.y * b.y + a.z * b.z

/-- THREE.Vector3.lengthSq. -/
def lengthSq (a : Vector3) : ℝ := a.x * a.x + a.y * a.y + a.z * a.z

/-- THREE.Vector3.length. -/
def length (a : Vector3) : ℝ := Real.sqrt (a.x * a.x + a.y * a.y + a.z * a.z)

/-- THREE.Vector3.distanceToSquared. -/
def distanceToSquared (a b : Vector3) : ℝ :=
  (a.x - b.x) * (a.x - b.x) + (a.y - b.y) * (a.y - b.y) + (a.z - b.z) * (a.z - b.z)

/-- THREE.Vector3.normalize: divideScalar (length or, when the length is 0, 1). -/
def normalize (a : Vector3) : Vector3 :=
  let l := a.length
  let d := if l = 0 then 1 else l
  ⟨a.x / d, a.y / d, a.z / d⟩

/-- THREE.Vector3.clamp: componentwise `max(min.c, min(max.c, this.c))`. -/
def clampV (a lo hi : Vector3) : Vector3 :=
  ⟨max lo.x (min hi.x a.x), max lo.y (min hi.y a.y), max lo.z (min hi.z a.z)⟩

@[simp] theorem lengthSq_zero : lengthSq 0 = 0 := by simp [lengthSq]

theorem length_eq_sqrt_lengthSq (a : Vector3) : a.length = Real.sqrt a.lengthSq := rfl

end Vector3

/-- THREE.Box3: an axis-aligned box given by its two corner vectors. -/
structure Box3 where
  min : Vector3
  max : Vector3

namespace Box3

/-- THREE.Box3.clampPoint: the query point clamped into the box. -/
def clampPoint (box : Box3) (point : Vector3) : Vector3 :=
  Vector3.clampV point box.min box.max

/-- THREE.Box3.intersectsSphere: clamp the center into the box and compare the
squared distance with the squared radius. -/
def intersectsSphere (box : Box3) (center : Vector3) (radius : ℝ) : Prop :=
  Vector3.distanceToSquared (box.clampPoint center) center ≤ radius * radius

end Box3

end Three

open Three

namespace CollisionSystem

/-- CollisionSystem.avatarRadius (0.5). -/
def avatarRadius : ℝ := 0.5

/-- CollisionSystem.pushBackDistance (0.2). -/
def pushBackDistance : ℝ := 0.2

/-- CollisionSystem.bounceStrength (0.8). -/
def bounceStrength : ℝ := 0.8

/-- The collisionResponse setting: stop, slide or bounce (the field defaults
to bounce). -/
inductive CollisionResponse where
  | stop
  | slide
  | bounce

/-- A registered collidable object, reduced to the data checkCollision reads
from it per call: its current world-space bounding box (Box3.setFromObject)
and its isTerrain tag. -/
structure Collidable where
  box : Box3
  isTerrain : Bool

/-- The record checkCollision returns. -/
structure CollisionResult where
  position : Vector3
  velocity : Vector3
  collisionDetected : Bool

/-- CollisionSystem.checkCollision lines 118-120: the point the code computes
as the closest point on the bounding box.  The source creates a fresh vector
(which THREE initialises to (0,0,0)) and clamps THAT vector into the box; the
avatar position is never copied in, so this depends on the box alone. -/
def closestPoint (boundingBox : Box3) : Vector3 :=
  Vector3.clampV 0 boundingBox.min boundingBox.max

/-- The closest point on the box to the avatar center as the specification
words it: the query position clamped to the box.  Modelled from the spec for
comparison with `closestPoint`; the source does not compute this. -/
def closestPointSpec (boundingBox : Box3) (position : Vector3) : Vector3 :=
  Vector3.clampV position boundingBox.min boundingBox.max

/-- CollisionSystem.slideAlongSurface: mutates only the position cell; the
returned vector is the position after the call.  The normal argument arrives
already scaled by (overlap + pushBackDistance), as at the call site. -/
def slideAlongSurface (position velocity normal : Vector3) : Vector3 :=
  let d := velocity.dot normal
  if d < 0 then
    let slideDirection := velocity - d • normal
    if 0.0001 < slideDirection.lengthSq then
      position + (velocity.length * 0.5) • slideDirection.normalize
    else position
  else position

/-- The body of the per-object loop of checkCollision (lines 94-211), acting
on the accumulated (adjustedPosition, adjustedVelocity, collisionDetected)
triple.  `position` and `velocity` are the loop-invariant input references.
The `adjustment` vector is the `direction` cell after the in-place
`multiplyScalar(overlap + pushBackDistance)` of line 163, so the stop and
bounce branches read the scaled vector where they say `direction`. -/
def checkCollisionStep (response : CollisionResponse) (position velocity : Vector3)
    (acc : Vector3 × Vector3 × Bool) (object : Collidable) : Vector3 × Vector3 × Bool :=
  if object.isTerrain then acc else
  let boundingBox := object.box
  if boundingBox.intersectsSphere position avatarRadius then
    let cp := closestPoint boundingBox
    let direction := position - cp
    let distance := direction.length
    if distance < 0.001 then
      let pushDirection :=
        if 0.0001 < velocity.lengthSq then velocity.normalize else (⟨1, 0, 0⟩ : Vector3)
      (cp + (avatarRadius + pushBackDistance) • pushDirection,
        (-bounceStrength) • velocity, true)
    else
      let directionN := direction.normalize
      let overlap := avatarRadius - distance
      if 0 < overlap then
        let adjustment := (overlap + pushBackDistance) • directionN
        let newPosition := acc.1 + adjustment
        match response with
        | .stop =>
            let normalComponent := velocity.dot adjustment
            if normalComponent < 0 then
              (newPosition, acc.2.1 - normalComponent • adjustment, true)
            else (newPosition, acc.2.1, true)
        | .slide =>
            (slideAlongSurface newPosition acc.2.1 adjustment, acc.2.1, true)
        | .bounce =>
            let normalComponent := velocity.dot adjustment
            if normalComponent < 0 then
              let reflection := (2 * normalComponent) • adjustment
              (newPosition, bounceStrength • (acc.2.1 - reflection), true)
            else (newPosition, acc.2.1, true)
      else (acc.1, acc.2.1, true)
  else acc

/-- CollisionSystem.checkCollision: clone the inputs, early-out on a velocity
whose squared length is below 0.0001, otherwise fold the per-object check over
the registry in registration order. -/
def checkCollision (response : CollisionResponse) (objects : List Collidable)
    (position velocity : Vector3) : CollisionResult :=
  let adjustedPosition := position
  let adjustedVelocity := velocity
  if velocity.lengthSq < 0.0001 then
    { position := adjustedPosition, velocity := adjustedVelocity, collisionDetected := false }
  else
    let r := objects.foldl (checkCollisionStep response position velocity)
      (adjustedPosition, adjustedVelocity, false)
    { position := r.1, velocity := r.2.1, collisionDetected := r.2.2 }

end CollisionSystem

namespace Avatar

open CollisionSystem

/-- Math.atan2, by the usual case split on the quadrant. -/
def atan2 (y x : ℝ) : ℝ :=
  if 0 < x then Real.arctan (y / x)
  else if x < 0 then
    if 0 ≤ y then Real.arctan (y / x) + Real.pi else Real.arctan (y / x) - Real.pi
  else
    if 0 < y then Real.pi / 2 else if y < 0 then -(Real.pi / 2) else 0

/-- Math.sign as the source uses it. -/
def signR (r : ℝ) : ℝ := if r < 0 then -1 else if 0 < r then 1 else 0

/-- The first wrapping loop of Avatar.update: while the difference exceeds pi,
subtract two pi. -/
def wrapDown (d : ℝ) : ℝ :=
  if h : Real.pi < d then wrapDown (d - 2 * Real.pi) else d
termination_by (⌈(d - Real.pi) / (2 * Real.pi)⌉).toNat
decreasing_by
  have hpi := Real.pi_pos
  have harg : (d - 2 * Real.pi - Real.pi) / (2 * Real.pi)
      = (d - Real.pi) / (2 * Real.pi) - 1 := by
    have h2 : (2 : ℝ) * Real.pi ≠ 0 := by positivity
    field_simp
    ring
  have hpos : (0 : ℝ) < (d - Real.pi) / (2 * Real.pi) :=
    div_pos (by linarith) (by linarith)
  have h1 : 0 < ⌈(d - Real.pi) / (2 * Real.pi)⌉ := Int.ceil_pos.mpr hpos
  rw [harg, Int.ceil_sub_one]
  omega

/-- The second wrapping loop: while the difference is below minus pi, add two
pi. -/
def wrapUp (d : ℝ) : ℝ :=
  if h : d < -Real.pi then wrapUp (d + 2 * Real.pi) else d
termination_by (⌈(-Real.pi - d) / (2 * Real.pi)⌉).toNat
decreasing_by
  have hpi := Real.pi_pos
  have harg : (-Real.pi - (d + 2 * Real.pi)) / (2 * Real.pi)
      = (-Real.pi - d) / (2 * Real.pi) - 1 := by
    have h2 : (2 : ℝ) * Real.pi ≠ 0 := by positivity
    field_simp
    ring
  have hpos : (0 : ℝ) < (-Real.pi - d) / (2 * Real.pi) :=
    div_pos (by linarith) (by linarith)
  have h1 : 0 < ⌈(-Real.pi - d) / (2 * Real.pi)⌉ := Int.ceil_pos.mpr hpos
  rw [harg, Int.ceil_sub_one]
  omega

/-- Avatar.update lines 543-546: the rotation difference normalized to the
range from minus pi to pi by the two while loops. -/
def normalizeDiff (d : ℝ) : ℝ := wrapUp (wrapDown d)

theorem wrapDown_of_le {d : ℝ} (h : d ≤ Real.pi) : wrapDown d = d := by
  rw [wrapDown]
  exact dif_neg (not_lt.mpr h)

theorem wrapUp_of_le {d : ℝ} (h : -Real.pi ≤ d) : wrapUp d = d := by
  rw [wrapUp]
  exact dif_neg (not_lt.mpr h)

theorem normalizeDiff_of_mem {d : ℝ} (h1 : -Real.pi ≤ d) (h2 : d ≤ Real.pi) :
    normalizeDiff d = d := by
  rw [normalizeDiff, wrapDown_of_le h2, wrapUp_of_le h1]

/-- The keyboard snapshot fields the update reads.  `wUpper` is the capital
variant the sprint check also consults; `space` is the key " " and
`spaceWord` the key "Space". -/
structure Keys where
  w : Bool
  wUpper : Bool
  s : Bool
  a : Bool
  d : Bool
  shift : Bool
  control : Bool
  space : Bool
  spaceWord : Bool

/-- The empty snapshot the update substitutes while controls are disabled. -/
def emptyKeys : Keys :=
  ⟨false, false, false, false, false, false, false, false, false⟩

/-- Constants of the collision variant of Avatar (second class in
src/core/Avatar.ts). -/
def moveSpeed : ℝ := 0.1

def sprintSpeed : ℝ := 0.2

def rotationSpeed : ℝ := 0.05

def jumpHeight : ℝ := 1.5

def jumpDuration : ℝ := 0.5

def groundY : ℝ := 1.0

def acceleration : ℝ := 0.05

def deceleration : ℝ := 0.03

def bumpDuration : ℝ := 0.3

def controlsDisabledDuration : ℝ := 0.3

/-- The mutable fields of the collision-variant Avatar that the update reads
or writes (presentation-only fields aside). -/
structure AvatarState where
  position : Three.Vector3
  velocity : Three.Vector3
  isJumping : Bool
  jumpStartTime : ℝ
  targetRotation : ℝ
  currentRotation : ℝ
  isSprinting : Bool
  isCrouching : Bool
  currentSpeed : ℝ
  isBumping : Bool
  bumpStartTime : ℝ
  bumpVelocity : Three.Vector3
  controlsDisabled : Bool
  controlsDisabledStartTime : ℝ

/-- The state the constructor leaves behind: mesh at (0, groundY, 0), all
timers and flags cleared, speed zero. -/
def initialState : AvatarState where
  position := ⟨0, groundY, 0⟩
  velocity := 0
  isJumping := false
  jumpStartTime := 0
  targetRotation := 0
  currentRotation := 0
  isSprinting := false
  isCrouching := false
  currentSpeed := 0
  isBumping := false
  bumpStartTime := 0
  bumpVelocity := 0
  controlsDisabled := false
  controlsDisabledStartTime := 0

/-- Avatar.update lines 470-482: the controls-disabled gate.  Returns the
controlsDisabled flag after the check and the key snapshot the rest of the
call sees (emptied while the timer still runs). -/
def controlsGate (st : AvatarState) (keys : Keys) (now : ℝ) : Bool × Keys :=
  if st.controlsDisabled then
    if controlsDisabledDuration ≤ now - st.controlsDisabledStartTime then (false, keys)
    else (true, emptyKeys)
  else (st.controlsDisabled, keys)

/-- Avatar.update line 524 (and line 191 of the GLTF variant): the sprint
flag. -/
def sprintOf (k : Keys) : Bool := k.shift && (k.w || k.wUpper)

/-- Avatar.update lines 559-562: the target speed for this call. -/
def targetSpeedOf (k : Keys) : ℝ :=
  if k.w || k.s || k.a || k.d then (if sprintOf k then sprintSpeed else moveSpeed) else 0

/-- Avatar.update lines 565-571: move currentSpeed toward the target by the
acceleration or deceleration rate, clamped at the target. -/
def stepSpeed (currentSpeed targetSpeed deltaTime : ℝ) : ℝ :=
  if currentSpeed < targetSpeed then
    let c := currentSpeed + acceleration * deltaTime * 60
    if targetSpeed < c then targetSpeed else c
  else if targetSpeed < currentSpeed then
    let c := currentSpeed - deceleration * deltaTime * 60
    if c < targetSpeed then targetSpeed else c
  else currentSpeed

/-- Avatar.update lines 548-556 (collision variant): rotation smoothing with
an uncapped step of rotationSpeed * deltaTime * 60 in the sign of the
normalized difference. -/
def rotationUpdate (currentRotation targetRotation deltaTime : ℝ) : ℝ :=
  let normalizedDiff := normalizeDiff (targetRotation - currentRotation)
  if 0.01 < |normalizedDiff| then
    currentRotation + signR normalizedDiff * rotationSpeed * deltaTime * 60
  else currentRotation

/-- Avatar.update lines 221-234 (GLTF variant, first class in the file):
rotation smoothing whose step is the minimum of the absolute difference and
0.03 * deltaTime * 60, in the sign of the difference. -/
def rotationUpdateGLTF (currentRotation targetRotation deltaTime : ℝ) : ℝ :=
  let normalizedDiff := normalizeDiff (targetRotation - currentRotation)
  if 0.01 < |normalizedDiff| then
    currentRotation + signR normalizedDiff * min |normalizedDiff| (0.03 * deltaTime * 60)
  else currentRotation

/-- Avatar.update lines 574-585: the four movement-key contributions.  The
source writes velocity.add(forward.multiplyScalar(c)): multiplyScalar scales
the forward (or right) cell in place and hands the scaled cell to add, so a
later key of the same axis scales the already-scaled vector again.  The
fold below keeps the mutated cells (f1, r1) to reproduce that. -/
def assembleVelocity (forward right : Three.Vector3) (k : Keys) (c : ℝ) : Three.Vector3 :=
  let v0 : Three.Vector3 := 0
  let p1 := if k.w then (v0 + c • forward, c • forward) else (v0, forward)
  let v1 := p1.1
  let f1 := p1.2
  let v2 := if k.s then v1 + (-c) • f1 else v1
  let p3 := if k.a then (v2 + c • right, c • right) else (v2, right)
  let v3 := p3.1
  let r1 := p3.2
  let v4 := if k.d then v3 + (-c) • r1 else v3
  v4

/-- Avatar.update lines 512-521: forward is the camera direction projected to
the horizontal plane and normalized; right is its perpendicular, normalized. -/
def forwardOf (camDir : Three.Vector3) : Three.Vector3 :=
  Three.Vector3.normalize ⟨camDir.x, 0, camDir.z⟩

def rightOf (forward : Three.Vector3) : Three.Vector3 :=
  Three.Vector3.normalize ⟨forward.z, 0, -forward.x⟩

/-- Avatar.update lines 508-586, the else branch of the bump check: normal
movement processing.  Consumes the gated key snapshot and returns the state
with velocity, rotations, sprint and crouch flags and current speed updated.
The position is untouched here; the collision block moves it later. -/
def movementPhase (st : AvatarState) (keys : Keys) (camDir : Three.Vector3)
    (deltaTime : ℝ) : AvatarState :=
  let forward := forwardOf camDir
  let right := rightOf forward
  let isSprinting := sprintOf keys
  let isCrouching := keys.control
  let targetRotation :=
    if keys.w || keys.a || keys.s || keys.d then atan2 forward.x forward.z
    else st.targetRotation
  let currentRotation := rotationUpdate st.currentRotation targetRotation deltaTime
  let targetSpeed := targetSpeedOf keys
  let currentSpeed := stepSpeed st.currentSpeed targetSpeed deltaTime
  let velocity := assembleVelocity forward right keys currentSpeed
  { st with
    velocity := velocity
    targetRotation := targetRotation
    currentRotation := currentRotation
    isSprinting := isSprinting
    isCrouching := isCrouching
    currentSpeed := currentSpeed }

/-- Avatar.update lines 485-507: the bump check.  While the bump timer runs,
force the stored bump velocity and skip movement processing; once it has
elapsed, clear the flag and the stored bump velocity (the velocity field
itself is left as it was). -/
def bumpPhase (st : AvatarState) (now : ℝ) : AvatarState :=
  if bumpDuration ≤ now - st.bumpStartTime then
    { st with isBumping := false, bumpVelocity := 0 }
  else
    { st with velocity := st.bumpVelocity }

/-- Avatar.update lines 589-596: on the jump key, when not already jumping
and controls are enabled, start the jump at the current wall clock. -/
def jumpTrigger (st : AvatarState) (keys1 : Keys) (now : ℝ) : AvatarState :=
  if (keys1.space || keys1.spaceWord) && !st.isJumping && !st.controlsDisabled then
    { st with isJumping := true, jumpStartTime := now }
  else st

/-- Avatar.update lines 598-634: query the collision system at the tentative
next position, start a bump on a detected collision when not bumping and
controls are enabled, adopt the adjusted position always and the adjusted
velocity only when not bumping. -/
def collisionPhase (st : AvatarState) (objects : List Collidable)
    (response : CollisionResponse) (now : ℝ) : AvatarState :=
  let newPosition := st.position + st.velocity
  let collisionResult := checkCollision response objects newPosition st.velocity
  let st4 :=
    if collisionResult.collisionDetected && !st.isBumping && !st.controlsDisabled then
      { st with
        isBumping := true
        bumpStartTime := now
        bumpVelocity := (-1.5 : ℝ) • st.velocity
        controlsDisabled := true
        controlsDisabledStartTime := now }
    else st
  let st5 := { st4 with position := collisionResult.position }
  if !st5.isBumping then { st5 with velocity := collisionResult.velocity } else st5

/-- Avatar.update lines 637-658: while jumping set the height from the
parabolic profile until the duration elapses, then end the jump; when not
jumping pin the mesh back to ground level. -/
def jumpPhysics (st : AvatarState) (now : ℝ) : AvatarState :=
  if st.isJumping then
    let elapsed := now - st.jumpStartTime
    if elapsed < jumpDuration then
      let t := elapsed / jumpDuration
      let jumpY := -4 * jumpHeight * (t * t - t)
      { st with position := ⟨st.position.x, groundY + jumpY, st.position.z⟩ }
    else
      { st with position := ⟨st.position.x, groundY, st.position.z⟩, isJumping := false }
  else { st with position := ⟨st.position.x, groundY, st.position.z⟩ }

/-- Avatar.update lines 470-596 in order: the controls gate, then the
bump-or-movement branch, then the jump trigger; the state as built just
before the collision query. -/
def preCollision (st : AvatarState) (keys : Keys) (deltaTime now : ℝ)
    (camDir : Three.Vector3) : AvatarState :=
  let gate := controlsGate st keys now
  let st1 := { st with controlsDisabled := gate.1 }
  let st2 :=
    if st1.isBumping then bumpPhase st1 now
    else movementPhase st1 gate.2 camDir deltaTime
  jumpTrigger st2 gate.2 now

/-- Avatar.update of the collision variant (src/core/Avatar.ts lines
469-666) as one state transformer.  `now` stands for performance.now()/1000,
`camDir` for the camera world direction, `objects` for the collision
registry snapshot and `response` for the configured collision response. -/
def update (st : AvatarState) (keys : Keys) (deltaTime now : ℝ)
    (camDir : Three.Vector3) (objects : List Collidable)
    (response : CollisionResponse) : AvatarState :=
  jumpPhysics (collisionPhase (preCollision st keys deltaTime now camDir)
    objects response now) now

/-- The parabolic jump profile of Avatar.update line 642. -/
def jumpYProfile (t : ℝ) : ℝ := -4 * jumpHeight * (t * t - t)

/-- One frame of inputs to the update: the polled key snapshot, the computed
delta time, the wall clock, the camera direction and the collision registry
snapshot with the configured response. -/
structure TickInput where
  keys : Keys
  deltaTime : ℝ
  now : ℝ
  camDir : Three.Vector3
  objects : List Collidable
  response : CollisionResponse

/-- The frame loop: fold update over a list of frames. -/
def runUpdates (st : AvatarState) (l : List TickInput) : AvatarState :=
  l.foldl (fun s i => update s i.keys i.deltaTime i.now i.camDir i.objects i.response) st

end Avatar

open CollisionSystem Avatar

/-- C1: the code comment announces the closest point on the bounding box to
the avatar, but the vector that gets clamped is the freshly created (0,0,0),
not the avatar position: at the box [1,3]x[-1,1]x[-1,1] and avatar center
(0.6, 0.5, 0) the sphere intersects the box, yet the point the code uses is
(1,0,0) while the position clamped to the box is (1, 0.5, 0), so the
push-out direction is computed from the wrong point. -/
theorem c1_closestPoint_clamps_zero_not_position :
    Box3.intersectsSphere ⟨⟨1, -1, -1⟩, ⟨3, 1, 1⟩⟩ ⟨0.6, 0.5, 0⟩ avatarRadius ∧
    closestPoint ⟨⟨1, -1, -1⟩, ⟨3, 1, 1⟩⟩ = ⟨1, 0, 0⟩ ∧
    closestPointSpec ⟨⟨1, -1, -1⟩, ⟨3, 1, 1⟩⟩ ⟨0.6, 0.5, 0⟩ = ⟨1, 0.5, 0⟩ ∧
    closestPoint ⟨⟨1, -1, -1⟩, ⟨3, 1, 1⟩⟩ ≠
      closestPointSpec ⟨⟨1, -1, -1⟩, ⟨3, 1, 1⟩⟩ ⟨0.6, 0.5, 0⟩ := by
  refine ⟨?_, ?_, ?_, ?_⟩ <;>
    norm_num [Box3.intersectsSphere, Box3.clampPoint, Vector3.clampV,
      Vector3.distanceToSquared, closestPoint, closestPointSpec, avatarRadius,
      Vector3.mk.injEq, min_def, max_def]

/-- C3: holding w and s in the same call does not cancel: multiplyScalar
scales the shared forward cell in place, so with forward (0,0,1) and
currentSpeed 0.1 the assembled velocity is (0, 0, 0.09), not zero, while
independent contributions of plus and minus currentSpeed would cancel. -/
theorem c3_opposing_keys_do_not_cancel :
    assembleVelocity ⟨0, 0, 1⟩ ⟨1, 0, 0⟩
      ⟨true, false, true, false, false, false, false, false, false⟩ 0.1 =
      ⟨0, 0, 0.09⟩ ∧
    assembleVelocity ⟨0, 0, 1⟩ ⟨1, 0, 0⟩
      ⟨true, false, true, false, false, false, false, false, false⟩ 0.1 ≠ 0 ∧
    (0.1 : ℝ) • (⟨0, 0, 1⟩ : Vector3) + (-0.1 : ℝ) • (⟨0, 0, 1⟩ : Vector3) = 0 := by
  refine ⟨?_, ?_, ?_⟩ <;>
    norm_num [assembleVelocity, Vector3.ext_iff,
      show ((0 : Vector3) = ⟨0, 0, 0⟩) from rfl]

/-- C6: when the squared length of the desired velocity is below 0.0001 the
collision check returns the inputs unchanged with the flag false, whatever
the registry holds. -/
theorem c6_early_out (response : CollisionResponse) (objects : List Collidable)
    (position velocity : Vector3) (h : velocity.lengthSq < 0.0001) :
    checkCollision response objects position velocity =
      ⟨position, velocity, false⟩ := by
  simp only [checkCollision, if_pos h]

/-- C6 witness: the zero velocity against a nonempty registry. -/
theorem c6_early_out_witness :
    Vector3.lengthSq 0 < 0.0001 ∧
    checkCollision CollisionResponse.bounce
      [⟨⟨⟨-1, -1, -1⟩, ⟨1, 1, 1⟩⟩, false⟩] ⟨1, 2, 3⟩ 0 = ⟨⟨1, 2, 3⟩, 0, false⟩ :=
  ⟨by norm_num, c6_early_out CollisionResponse.bounce
    [⟨⟨⟨-1, -1, -1⟩, ⟨1, 1, 1⟩⟩, false⟩] ⟨1, 2, 3⟩ 0 (by norm_num)⟩

/-- C9: checkCollision is a function of the desired position, desired
velocity and registry snapshot alone (together with the configured response
mode): two calls on equal inputs agree exactly.  In the source the inputs
are never written: the result is built in cloned vectors and the registry is
only read, which is what lets the call be embedded as this pure function. -/
theorem c9_checkCollision_deterministic (response1 response2 : CollisionResponse)
    (objects1 objects2 : List Collidable) (p1 p2 v1 v2 : Vector3)
    (hr : response1 = response2) (ho : objects1 = objects2)
    (hp : p1 = p2) (hv : v1 = v2) :
    checkCollision response1 objects1 p1 v1 = checkCollision response2 objects2 p2 v2 := by
  rw [hr, ho, hp, hv]

/-- C9 witness: two runs on the same concrete snapshot. -/
theorem c9_checkCollision_deterministic_witness :
    checkCollision CollisionResponse.bounce [⟨⟨⟨-1, -1, -1⟩, ⟨1, 1, 1⟩⟩, false⟩]
        ⟨2, 0, 0⟩ ⟨0.1, 0, 0⟩ =
      checkCollision CollisionResponse.bounce [⟨⟨⟨-1, -1, -1⟩, ⟨1, 1, 1⟩⟩, false⟩]
        ⟨2, 0, 0⟩ ⟨0.1, 0, 0⟩ :=
  c9_checkCollision_deterministic _ _ _ _ _ _ _ _ rfl rfl rfl rfl

theorem normalizeDiff_small {d : ℝ} (h1 : -3 ≤ d) (h2 : d ≤ 3) :
    normalizeDiff d = d :=
  normalizeDiff_of_mem (by linarith [Real.pi_gt_three]) (by linarith [Real.pi_gt_three])

theorem forwardOf_e3 : forwardOf ⟨0, 0, 1⟩ = ⟨0, 0, 1⟩ := by
  norm_num [forwardOf, Vector3.normalize, Vector3.length, Vector3.mk.injEq]

theorem rightOf_e3 : rightOf ⟨0, 0, 1⟩ = ⟨1, 0, 0⟩ := by
  norm_num [rightOf, Vector3.normalize, Vector3.length, Vector3.mk.injEq]

theorem assembleVelocity_emptyKeys (f r : Vector3) (c : ℝ) :
    assembleVelocity f r ⟨false, false, false, false, false, false, false, false, false⟩ c
      = 0 := by
  simp [assembleVelocity]

theorem checkCollision_zero_velocity (response : CollisionResponse)
    (objects : List Collidable) (position : Vector3) :
    checkCollision response objects position 0 = ⟨position, 0, false⟩ := by
  have h : Vector3.lengthSq (0 : Vector3) < 0.0001 := by norm_num
  simp only [checkCollision, if_pos h]

/-- C4 counterexample: one call of the collision-variant update from current
facing 0 toward target facing 1/50 with deltaTime 1/60 steps the facing to
1/20, overshooting the target, and the step 1/20 is not the minimum of the
absolute difference 1/50 and rotationSpeed * deltaTime * 60. -/
theorem c4_overshoot_counterexample :
    (update { initialState with targetRotation := 1/50 } emptyKeys (1/60) 0
        ⟨0, 0, 1⟩ [] CollisionResponse.bounce).currentRotation = 1/20 ∧
    (update { initialState with targetRotation := 1/50 } emptyKeys (1/60) 0
        ⟨0, 0, 1⟩ [] CollisionResponse.bounce).targetRotation = 1/50 ∧
    ({ initialState with targetRotation := 1/50 } : AvatarState).currentRotation
      < (1/50 : ℝ) ∧
    (1/50 : ℝ) < 1/20 ∧
    (1/20 : ℝ) ≠ min (1/50) (rotationSpeed * (1/60) * 60) := by
  have hnd : normalizeDiff ((1 : ℝ)/50) = 1/50 :=
    normalizeDiff_small (by norm_num) (by norm_num)
  have habs : |(1 : ℝ)/50| = 1/50 := abs_of_pos (by norm_num)
  have hsign : signR ((1 : ℝ)/50) = 1 := by norm_num [signR]
  have heval : update { initialState with targetRotation := 1/50 } emptyKeys (1/60) 0
      ⟨0, 0, 1⟩ [] CollisionResponse.bounce =
      { initialState with targetRotation := 1/50, currentRotation := 1/20 } := by
    norm_num [update, preCollision, controlsGate, movementPhase, bumpPhase,
      jumpTrigger, collisionPhase, jumpPhysics, rotationUpdate,
      stepSpeed, targetSpeedOf, sprintOf, assembleVelocity_emptyKeys,
      checkCollision_zero_velocity, forwardOf_e3, rightOf_e3, initialState,
      emptyKeys, rotationSpeed, groundY, hnd, habs, hsign, AvatarState.mk.injEq,
      Vector3.mk.injEq]
  rw [heval]
  norm_num [initialState, rotationSpeed, min_def]

/-- C4 amended: facing-angle smoothing differs between the two variants.  In
the collision variant the step is rotationSpeed * deltaTime * 60 in the sign
of the wrapped difference with no cap, so a single call can rotate past the
target.  In the GLTF variant the step is the minimum of the absolute wrapped
difference and 0.03 * deltaTime * 60 in the sign of the difference, and for
nonnegative deltaTime the new facing stays between the old facing and the
target representative, so that variant never steps past the target. -/
theorem c4_rotation_step_amended :
    (∀ cur tgt dt : ℝ, 0.01 < |normalizeDiff (tgt - cur)| →
      rotationUpdate cur tgt dt =
        cur + signR (normalizeDiff (tgt - cur)) * rotationSpeed * dt * 60) ∧
    (∀ cur tgt dt : ℝ, 0 ≤ dt → 0.01 < |normalizeDiff (tgt - cur)| →
      rotationUpdateGLTF cur tgt dt =
        cur + signR (normalizeDiff (tgt - cur)) *
          min |normalizeDiff (tgt - cur)| (0.03 * dt * 60) ∧
      |rotationUpdateGLTF cur tgt dt - cur| ≤ |normalizeDiff (tgt - cur)| ∧
      min cur (cur + normalizeDiff (tgt - cur)) ≤ rotationUpdateGLTF cur tgt dt ∧
      rotationUpdateGLTF cur tgt dt ≤ max cur (cur + normalizeDiff (tgt - cur))) := by
  constructor
  · intro cur tgt dt h
    simp only [rotationUpdate, if_pos h]
  · intro cur tgt dt hdt h
    have heq : rotationUpdateGLTF cur tgt dt =
        cur + signR (normalizeDiff (tgt - cur)) *
          min |normalizeDiff (tgt - cur)| (0.03 * dt * 60) := by
      simp only [rotationUpdateGLTF, if_pos h]
    refine ⟨heq, ?_⟩
    set nd := normalizeDiff (tgt - cur) with hnd
    have hm0 : 0 ≤ min |nd| (0.03 * dt * 60) := le_min (abs_nonneg nd) (by positivity)
    have hmle : min |nd| (0.03 * dt * 60) ≤ |nd| := min_le_left _ _
    rcases lt_trichotomy nd 0 with hlt | heq0 | hgt
    · have hs : signR nd = -1 := by simp [signR, hlt]
      have habs : |nd| = -nd := abs_of_neg hlt
      rw [heq, hs]
      constructor
      · rw [add_sub_cancel_left, abs_mul, abs_of_nonneg hm0]
        have h1 : |(-1 : ℝ)| = 1 := by norm_num
        rw [h1, one_mul]
        exact hmle
      constructor
      · have : cur + nd ≤ cur + -1 * min |nd| (0.03 * dt * 60) := by
          have := hmle
          rw [habs] at this
          linarith
        exact le_trans (min_le_right _ _) this
      · have : cur + -1 * min |nd| (0.03 * dt * 60) ≤ cur := by linarith
        exact le_trans this (le_max_left _ _)
    · exfalso
      rw [heq0] at h
      simp at h
      linarith
    · have hs : signR nd = 1 := by simp [signR, hgt, not_lt.mpr (le_of_lt hgt)]
      have habs : |nd| = nd := abs_of_pos hgt
      rw [heq, hs]
      constructor
      · rw [add_sub_cancel_left, abs_mul, abs_of_nonneg hm0]
        have h1 : |(1 : ℝ)| = 1 := by norm_num
        rw [h1, one_mul]
        exact hmle
      constructor
      · have : cur ≤ cur + 1 * min |nd| (0.03 * dt * 60) := by linarith
        exact le_trans (min_le_left _ _) this
      · have : cur + 1 * min |nd| (0.03 * dt * 60) ≤ cur + nd := by
          have := hmle
          rw [habs] at this
          linarith
        exact le_trans this (le_max_right _ _)

theorem length_neg_two_fifths : Vector3.length ⟨-(2/5), 0, 0⟩ = 2/5 := by
  show Real.sqrt ((-(2/5) : ℝ) * (-(2/5)) + 0 * 0 + 0 * 0) = 2/5
  rw [show ((-(2/5) : ℝ) * (-(2/5)) + 0 * 0 + 0 * 0) = (2/5)^2 by norm_num]
  rw [Real.sqrt_sq (by norm_num)]

theorem normalize_neg_two_fifths :
    Vector3.normalize ⟨-(2/5), 0, 0⟩ = ⟨-1, 0, 0⟩ := by
  simp only [Vector3.normalize, length_neg_two_fifths]
  norm_num [Vector3.mk.injEq]

/-- C5: in bounce mode, the velocity the code returns is not the incoming
velocity reflected across the unit collision normal and scaled by 0.8.  At
the box [1,3]x[-1,1]x[-1,1] with avatar center (3/5, 0, 0) and incoming
velocity (1/10, 0, 0) the unit normal is (-1, 0, 0) and the velocity points
into the surface, the specified reflection is (-2/25, 0, 0), but the code
reflects across the direction cell after it was scaled in place by
(overlap + pushBackDistance) and returns (41/625, 0, 0): the avatar keeps
moving INTO the wall at a reduced speed instead of bouncing back. -/
theorem c5_bounce_reflection_uses_scaled_direction :
    (checkCollision CollisionResponse.bounce [⟨⟨⟨1, -1, -1⟩, ⟨3, 1, 1⟩⟩, false⟩]
        ⟨3/5, 0, 0⟩ ⟨1/10, 0, 0⟩).velocity = ⟨41/625, 0, 0⟩ ∧
    Vector3.normalize ((⟨3/5, 0, 0⟩ : Vector3) - closestPoint ⟨⟨1, -1, -1⟩, ⟨3, 1, 1⟩⟩)
      = ⟨-1, 0, 0⟩ ∧
    Vector3.dot ⟨1/10, 0, 0⟩ ⟨-1, 0, 0⟩ < 0 ∧
    bounceStrength • ((⟨1/10, 0, 0⟩ : Vector3)
        - (2 * Vector3.dot ⟨1/10, 0, 0⟩ ⟨-1, 0, 0⟩) • (⟨-1, 0, 0⟩ : Vector3))
      = ⟨-(2/25), 0, 0⟩ ∧
    (⟨41/625, 0, 0⟩ : Vector3) ≠ ⟨-(2/25), 0, 0⟩ := by
  have hcp : closestPoint ⟨⟨1, -1, -1⟩, ⟨3, 1, 1⟩⟩ = ⟨1, 0, 0⟩ := by
    norm_num [closestPoint, Vector3.clampV, Vector3.mk.injEq, min_def, max_def]
  have hdir : (⟨3/5, 0, 0⟩ : Vector3) - ⟨1, 0, 0⟩ = ⟨-(2/5), 0, 0⟩ := by
    norm_num [Vector3.ext_iff]
  refine ⟨?_, ?_, ?_, ?_, ?_⟩
  · norm_num [checkCollision, checkCollisionStep, List.foldl, hcp, hdir,
      length_neg_two_fifths, normalize_neg_two_fifths, Box3.intersectsSphere,
      Box3.clampPoint, Vector3.clampV, Vector3.distanceToSquared, Vector3.lengthSq,
      Vector3.dot, avatarRadius, pushBackDistance, bounceStrength,
      Vector3.ext_iff, min_def, max_def]
  · rw [hcp, hdir, normalize_neg_two_fifths]
  · norm_num [Vector3.dot]
  · norm_num [Vector3.dot, bounceStrength, Vector3.ext_iff]
  · norm_num [Vector3.mk.injEq]

theorem bumpPhase_isJumping (st : AvatarState) (now : ℝ) :
    (bumpPhase st now).isJumping = st.isJumping := by
  unfold bumpPhase
  split <;> rfl

theorem bumpPhase_jumpStartTime (st : AvatarState) (now : ℝ) :
    (bumpPhase st now).jumpStartTime = st.jumpStartTime := by
  unfold bumpPhase
  split <;> rfl

theorem bumpPhase_currentSpeed (st : AvatarState) (now : ℝ) :
    (bumpPhase st now).currentSpeed = st.currentSpeed := by
  unfold bumpPhase
  split <;> rfl

theorem collisionPhase_isJumping (st : AvatarState) (objects : List Collidable)
    (response : CollisionResponse) (now : ℝ) :
    (collisionPhase st objects response now).isJumping = st.isJumping := by
  unfold collisionPhase
  dsimp only
  split <;> split <;> rfl

theorem collisionPhase_jumpStartTime (st : AvatarState) (objects : List Collidable)
    (response : CollisionResponse) (now : ℝ) :
    (collisionPhase st objects response now).jumpStartTime = st.jumpStartTime := by
  unfold collisionPhase
  dsimp only
  split <;> split <;> rfl

theorem collisionPhase_currentSpeed (st : AvatarState) (objects : List Collidable)
    (response : CollisionResponse) (now : ℝ) :
    (collisionPhase st objects response now).currentSpeed = st.currentSpeed := by
  unfold collisionPhase
  dsimp only
  split <;> split <;> rfl

theorem jumpPhysics_isBumping (st : AvatarState) (now : ℝ) :
    (jumpPhysics st now).isBumping = st.isBumping := by
  unfold jumpPhysics
  dsimp only
  split
  · split <;> rfl
  · rfl

theorem jumpPhysics_velocity (st : AvatarState) (now : ℝ) :
    (jumpPhysics st now).velocity = st.velocity := by
  unfold jumpPhysics
  dsimp only
  split
  · split <;> rfl
  · rfl

theorem jumpPhysics_currentSpeed (st : AvatarState) (now : ℝ) :
    (jumpPhysics st now).currentSpeed = st.currentSpeed := by
  unfold jumpPhysics
  dsimp only
  split
  · split <;> rfl
  · rfl

theorem jumpTrigger_of_jumping {st : AvatarState} (keys1 : Keys) (now : ℝ)
    (h : st.isJumping = true) : jumpTrigger st keys1 now = st := by
  simp [jumpTrigger, h]

theorem preCollision_isJumping_of_jumping {st : AvatarState} (keys : Keys)
    (deltaTime now : ℝ) (camDir : Vector3) (h : st.isJumping = true) :
    (preCollision st keys deltaTime now camDir).isJumping = true ∧
    (preCollision st keys deltaTime now camDir).jumpStartTime = st.jumpStartTime := by
  unfold preCollision
  have h2 : (if ({ st with controlsDisabled := (controlsGate st keys now).1 }
      : AvatarState).isBumping then
        bumpPhase { st with controlsDisabled := (controlsGate st keys now).1 } now
      else movementPhase { st with controlsDisabled := (controlsGate st keys now).1 }
        (controlsGate st keys now).2 camDir deltaTime).isJumping = true := by
    split
    · rw [bumpPhase_isJumping]
      exact h
    · exact h
  rw [jumpTrigger_of_jumping _ _ h2]
  refine ⟨h2, ?_⟩
  split
  · rw [bumpPhase_jumpStartTime]
  · rfl

theorem jumpPhysics_ground (st : AvatarState) (now : ℝ) :
    (jumpPhysics st now).isJumping = true ∨
    (jumpPhysics st now).position.y = groundY := by
  unfold jumpPhysics
  dsimp only
  split
  · rename_i hj
    split
    · left
      exact hj
    · right
      rfl
  · right
    rfl

/-- C10: after any call of the collision-variant update that leaves the jump
flag false, the mesh height is exactly groundY: the grounding write at the
end of the call pins y back to ground level, whatever the collision
adjustment or bump state did before it. -/
theorem c10_not_jumping_implies_grounded (st : AvatarState) (keys : Keys)
    (deltaTime now : ℝ) (camDir : Vector3) (objects : List Collidable)
    (response : CollisionResponse)
    (h : (update st keys deltaTime now camDir objects response).isJumping = false) :
    (update st keys deltaTime now camDir objects response).position.y = groundY := by
  unfold update at h ⊢
  exact (jumpPhysics_ground _ _).resolve_left (by simp [h])

/-- C10 witness: an idle frame from the initial state ends not jumping and at
ground height 1. -/
theorem c10_witness :
    (update initialState emptyKeys (1/60) 0 ⟨0, 0, 1⟩ [] CollisionResponse.bounce).isJumping
      = false ∧
    (update initialState emptyKeys (1/60) 0 ⟨0, 0, 1⟩ [] CollisionResponse.bounce).position.y
      = groundY := by
  have hj : (update initialState emptyKeys (1/60) 0 ⟨0, 0, 1⟩ []
      CollisionResponse.bounce).isJumping = false := by
    norm_num [update, preCollision, controlsGate, movementPhase, bumpPhase,
      jumpTrigger, collisionPhase, jumpPhysics, initialState, emptyKeys,
      assembleVelocity_emptyKeys, checkCollision_zero_velocity]
  exact ⟨hj, c10_not_jumping_implies_grounded initialState emptyKeys (1/60) 0
    ⟨0, 0, 1⟩ [] CollisionResponse.bounce hj⟩

theorem jumpPhysics_of_jumping_lt {st : AvatarState} {now : ℝ}
    (hj : st.isJumping = true) (hlt : now - st.jumpStartTime < jumpDuration) :
    jumpPhysics st now = { st with position := ⟨st.position.x,
      groundY + jumpYProfile ((now - st.jumpStartTime) / jumpDuration),
      st.position.z⟩ } := by
  unfold jumpPhysics jumpYProfile
  dsimp only
  rw [if_pos hj, if_pos hlt]

theorem jumpPhysics_of_jumping_ge {st : AvatarState} {now : ℝ}
    (hj : st.isJumping = true) (hge : jumpDuration ≤ now - st.jumpStartTime) :
    jumpPhysics st now = { st with
      position := ⟨st.position.x, groundY, st.position.z⟩, isJumping := false } := by
  unfold jumpPhysics
  dsimp only
  rw [if_pos hj, if_neg (not_lt.mpr hge)]

/-- C8: the parabolic jump profile -4 * jumpHeight * (t^2 - t) is exactly 0
at t = 0 and t = 1, exactly jumpHeight at t = 1/2, and nonnegative on [0,1];
while a jump is in progress (elapsed below jumpDuration) the update sets the
mesh height to groundY plus the profile at elapsed/jumpDuration, and once
elapsed reaches jumpDuration the update ends the jump and resets the height
to groundY. -/
theorem c8_jump_parabola :
    jumpYProfile 0 = 0 ∧
    jumpYProfile 1 = 0 ∧
    jumpYProfile (1/2) = jumpHeight ∧
    (∀ t : ℝ, 0 ≤ t → t ≤ 1 → 0 ≤ jumpYProfile t) ∧
    (∀ (st : AvatarState) (keys : Keys) (deltaTime now : ℝ) (camDir : Vector3)
        (objects : List Collidable) (response : CollisionResponse),
      st.isJumping = true →
      (now - st.jumpStartTime < jumpDuration →
        (update st keys deltaTime now camDir objects response).position.y
          = groundY + jumpYProfile ((now - st.jumpStartTime) / jumpDuration)) ∧
      (jumpDuration ≤ now - st.jumpStartTime →
        (update st keys deltaTime now camDir objects response).position.y = groundY ∧
        (update st keys deltaTime now camDir objects response).isJumping = false)) := by
  refine ⟨by norm_num [jumpYProfile], by norm_num [jumpYProfile],
    by norm_num [jumpYProfile, jumpHeight], ?_, ?_⟩
  · intro t ht ht1
    unfold jumpYProfile jumpHeight
    nlinarith [mul_nonneg ht (by linarith : (0 : ℝ) ≤ 1 - t)]
  · intro st keys deltaTime now camDir objects response hj
    obtain ⟨hpcj, hpct⟩ := preCollision_isJumping_of_jumping keys deltaTime now camDir hj
    have h4j : (collisionPhase (preCollision st keys deltaTime now camDir)
        objects response now).isJumping = true := by
      rw [collisionPhase_isJumping]
      exact hpcj
    have h4t : (collisionPhase (preCollision st keys deltaTime now camDir)
        objects response now).jumpStartTime = st.jumpStartTime := by
      rw [collisionPhase_jumpStartTime]
      exact hpct
    constructor
    · intro hlt
      unfold update
      rw [jumpPhysics_of_jumping_lt h4j (by rw [h4t]; exact hlt)]
      dsimp only
      rw [h4t]
    · intro hge
      unfold update
      rw [jumpPhysics_of_jumping_ge h4j (by rw [h4t]; exact hge)]
      exact ⟨rfl, rfl⟩

theorem jumpTrigger_currentSpeed (st : AvatarState) (keys1 : Keys) (now : ℝ) :
    (jumpTrigger st keys1 now).currentSpeed = st.currentSpeed := by
  unfold jumpTrigger
  split <;> rfl

theorem movementPhase_currentSpeed (st : AvatarState) (keys : Keys)
    (camDir : Vector3) (deltaTime : ℝ) :
    (movementPhase st keys camDir deltaTime).currentSpeed
      = stepSpeed st.currentSpeed (targetSpeedOf keys) deltaTime := rfl

theorem update_currentSpeed (st : AvatarState) (keys : Keys) (deltaTime now : ℝ)
    (camDir : Vector3) (objects : List Collidable) (response : CollisionResponse) :
    (update st keys deltaTime now camDir objects response).currentSpeed =
      if st.isBumping = true then st.currentSpeed
      else stepSpeed st.currentSpeed
        (targetSpeedOf (controlsGate st keys now).2) deltaTime := by
  unfold update
  rw [jumpPhysics_currentSpeed, collisionPhase_currentSpeed]
  unfold preCollision
  dsimp only
  rw [jumpTrigger_currentSpeed]
  split
  · rw [bumpPhase_currentSpeed]
  · rw [movementPhase_currentSpeed]

theorem stepSpeed_props (c t dt : ℝ) (hdt : 0 ≤ dt) :
    min c t ≤ stepSpeed c t dt ∧ stepSpeed c t dt ≤ max c t ∧
    |stepSpeed c t dt - c| ≤ (if c < t then acceleration else deceleration) * dt * 60 := by
  have ha : (0 : ℝ) ≤ acceleration * dt * 60 :=
    mul_nonneg (mul_nonneg (by norm_num [acceleration]) hdt) (by norm_num)
  have hd : (0 : ℝ) ≤ deceleration * dt * 60 :=
    mul_nonneg (mul_nonneg (by norm_num [deceleration]) hdt) (by norm_num)
  unfold stepSpeed
  dsimp only
  split_ifs with h1 h2 h3 h4
  · exact ⟨min_le_right c t, le_max_right c t,
      by rw [abs_of_nonneg (by linarith)]; linarith⟩
  · refine ⟨le_trans (min_le_left c t) (by linarith), ?_, ?_⟩
    · exact le_trans (by linarith [not_lt.mp h2]) (le_max_right c t)
    · rw [add_sub_cancel_left, abs_of_nonneg ha]
  · exact ⟨min_le_right c t, le_max_right c t,
      by rw [abs_of_nonpos (by linarith)]; linarith⟩
  · refine ⟨le_trans (min_le_right c t) (by linarith [not_lt.mp h4]), ?_, ?_⟩
    · exact le_trans (by linarith) (le_max_left c t)
    · rw [sub_sub_cancel_left, abs_neg, abs_of_nonneg hd]
  · exact ⟨min_le_left c t, le_max_left c t, by rw [sub_self, abs_zero]; exact hd⟩

theorem targetSpeedOf_bounds (k : Keys) :
    0 ≤ targetSpeedOf k ∧ targetSpeedOf k ≤ max moveSpeed sprintSpeed := by
  unfold targetSpeedOf
  split_ifs <;> norm_num [moveSpeed, sprintSpeed]

/-- One call keeps currentSpeed inside [0, max moveSpeed sprintSpeed]. -/
theorem update_speed_in_range (st : AvatarState) (keys : Keys) (deltaTime now : ℝ)
    (camDir : Vector3) (objects : List Collidable) (response : CollisionResponse)
    (hdt : 0 ≤ deltaTime) (h0 : 0 ≤ st.currentSpeed)
    (h1 : st.currentSpeed ≤ max moveSpeed sprintSpeed) :
    0 ≤ (update st keys deltaTime now camDir objects response).currentSpeed ∧
    (update st keys deltaTime now camDir objects response).currentSpeed
      ≤ max moveSpeed sprintSpeed := by
  rw [update_currentSpeed]
  split
  · exact ⟨h0, h1⟩
  · obtain ⟨hl, hu, _⟩ := stepSpeed_props st.currentSpeed
      (targetSpeedOf (controlsGate st keys now).2) deltaTime hdt
    obtain ⟨ht0, ht1⟩ := targetSpeedOf_bounds (controlsGate st keys now).2
    exact ⟨le_trans (le_min h0 ht0) hl, le_trans hu (max_le h1 ht1)⟩

theorem runUpdates_cons (st : AvatarState) (i : TickInput) (l : List TickInput) :
    runUpdates st (i :: l) =
      runUpdates (update st i.keys i.deltaTime i.now i.camDir i.objects i.response) l := rfl

theorem runUpdates_speed_in_range (l : List TickInput) (st : AvatarState)
    (h0 : 0 ≤ st.currentSpeed) (h1 : st.currentSpeed ≤ max moveSpeed sprintSpeed)
    (hdt : ∀ i ∈ l, 0 ≤ i.deltaTime) :
    0 ≤ (runUpdates st l).currentSpeed ∧
    (runUpdates st l).currentSpeed ≤ max moveSpeed sprintSpeed := by
  induction l generalizing st with
  | nil => exact ⟨h0, h1⟩
  | cons i l ih =>
      rw [runUpdates_cons]
      obtain ⟨g0, g1⟩ := update_speed_in_range st i.keys i.deltaTime i.now i.camDir
        i.objects i.response (hdt i (List.mem_cons_self i l)) h0 h1
      exact ih _ g0 g1 fun j hj => hdt j (List.mem_cons_of_mem i hj)

/-- C7: currentSpeed stays within [0, max moveSpeed sprintSpeed] across any
sequence of frames with nonnegative delta times starting from the
constructor state, and each single call moves currentSpeed toward the target
speed computed from the gated key snapshot without passing it, changing by
at most acceleration (when accelerating) or deceleration (when
decelerating) times deltaTime times 60; a call in the bump branch skips the
speed easing and leaves currentSpeed where it was, which the bounds also
cover. -/
theorem c7_current_speed_invariant :
    (∀ (st : AvatarState) (keys : Keys) (deltaTime now : ℝ) (camDir : Vector3)
        (objects : List Collidable) (response : CollisionResponse), 0 ≤ deltaTime →
      (0 ≤ st.currentSpeed → st.currentSpeed ≤ max moveSpeed sprintSpeed →
        0 ≤ (update st keys deltaTime now camDir objects response).currentSpeed ∧
        (update st keys deltaTime now camDir objects response).currentSpeed
          ≤ max moveSpeed sprintSpeed) ∧
      min st.currentSpeed (targetSpeedOf (controlsGate st keys now).2)
        ≤ (update st keys deltaTime now camDir objects response).currentSpeed ∧
      (update st keys deltaTime now camDir objects response).currentSpeed
        ≤ max st.currentSpeed (targetSpeedOf (controlsGate st keys now).2) ∧
      |(update st keys deltaTime now camDir objects response).currentSpeed
          - st.currentSpeed| ≤
        (if st.currentSpeed < targetSpeedOf (controlsGate st keys now).2
          then acceleration else deceleration) * deltaTime * 60) ∧
    (∀ l : List TickInput, (∀ i ∈ l, 0 ≤ i.deltaTime) →
      0 ≤ (runUpdates initialState l).currentSpeed ∧
      (runUpdates initialState l).currentSpeed ≤ max moveSpeed sprintSpeed) := by
  constructor
  · intro st keys deltaTime now camDir objects response hdt
    have ha : (0 : ℝ) ≤ acceleration * deltaTime * 60 :=
      mul_nonneg (mul_nonneg (by norm_num [acceleration]) hdt) (by norm_num)
    have hd : (0 : ℝ) ≤ deceleration * deltaTime * 60 :=
      mul_nonneg (mul_nonneg (by norm_num [deceleration]) hdt) (by norm_num)
    refine ⟨fun h0 h1 => update_speed_in_range st keys deltaTime now camDir objects
      response hdt h0 h1, ?_⟩
    rw [update_currentSpeed]
    split
    · refine ⟨min_le_left _ _, le_max_left _ _, ?_⟩
      rw [sub_self, abs_zero]
      split <;> [exact ha; exact hd]
    · exact stepSpeed_props st.currentSpeed
        (targetSpeedOf (controlsGate st keys now).2) deltaTime hdt
  · intro l hdt
    exact runUpdates_speed_in_range l initialState (by norm_num [initialState])
      (by norm_num [initialState, moveSpeed, sprintSpeed]) hdt

theorem mk_add_mk (a b c d e f : ℝ) :
    (⟨a, b, c⟩ : Vector3) + ⟨d, e, f⟩ = ⟨a + d, b + e, c + f⟩ := rfl

theorem mk_sub_mk (a b c d e f : ℝ) :
    (⟨a, b, c⟩ : Vector3) - ⟨d, e, f⟩ = ⟨a - d, b - e, c - f⟩ := rfl

theorem smul_mk (s a b c : ℝ) :
    s • (⟨a, b, c⟩ : Vector3) = ⟨s * a, s * b, s * c⟩ := rfl

theorem length_00neg920 : Vector3.length ⟨0, 0, -(9/20)⟩ = 9/20 := by
  show Real.sqrt ((0 : ℝ) * 0 + 0 * 0 + -(9/20) * -(9/20)) = 9/20
  rw [show ((0 : ℝ) * 0 + 0 * 0 + -(9/20) * -(9/20)) = (9/20)^2 by norm_num]
  rw [Real.sqrt_sq (by norm_num)]

theorem normalize_00neg920 :
    Vector3.normalize ⟨0, 0, -(9/20)⟩ = ⟨0, 0, -1⟩ := by
  simp only [Vector3.normalize, length_00neg920]
  norm_num [Vector3.mk.injEq]

/-- The box used by the bump scenario: x in [-1,1], y in [1,3], z in [2,4]. -/
theorem cc_bump_tick1 :
    checkCollision CollisionResponse.bounce [⟨⟨⟨-1, 1, 2⟩, ⟨1, 3, 4⟩⟩, false⟩]
        ⟨0, 1, 31/20⟩ ⟨0, 0, 1/10⟩ =
      ⟨⟨0, 1, 13/10⟩, ⟨0, 0, 7/100⟩, true⟩ := by
  norm_num [checkCollision, checkCollisionStep, List.foldl, closestPoint,
    Box3.intersectsSphere, Box3.clampPoint, Vector3.clampV,
    Vector3.distanceToSquared, Vector3.lengthSq, Vector3.dot, Vector3.normalize,
    avatarRadius, pushBackDistance, bounceStrength, length_00neg920,
    mk_sub_mk, mk_add_mk, smul_mk, min_def, max_def,
    CollisionResult.mk.injEq, Vector3.mk.injEq]

theorem cc_bump_tick2 :
    checkCollision CollisionResponse.bounce [⟨⟨⟨-1, 1, 2⟩, ⟨1, 3, 4⟩⟩, false⟩]
        ⟨0, 1, 23/20⟩ ⟨0, 0, -(3/20)⟩ =
      ⟨⟨0, 1, 23/20⟩, ⟨0, 0, -(3/20)⟩, false⟩ := by
  norm_num [checkCollision, checkCollisionStep, List.foldl,
    Box3.intersectsSphere, Box3.clampPoint, Vector3.clampV,
    Vector3.distanceToSquared, Vector3.lengthSq, avatarRadius,
    min_def, max_def, CollisionResult.mk.injEq, Vector3.mk.injEq]

theorem cc_bump_tick3 :
    checkCollision CollisionResponse.bounce [⟨⟨⟨-1, 1, 2⟩, ⟨1, 3, 4⟩⟩, false⟩]
        ⟨0, 1, 1⟩ ⟨0, 0, -(3/20)⟩ =
      ⟨⟨0, 1, 1⟩, ⟨0, 0, -(3/20)⟩, false⟩ := by
  norm_num [checkCollision, checkCollisionStep, List.foldl,
    Box3.intersectsSphere, Box3.clampPoint, Vector3.clampV,
    Vector3.distanceToSquared, Vector3.lengthSq, avatarRadius,
    min_def, max_def, CollisionResult.mk.injEq, Vector3.mk.injEq]

theorem atan2_zero_one : atan2 0 1 = 0 := by
  norm_num [atan2, Real.arctan_zero]

theorem normalizeDiff_zero : normalizeDiff 0 = 0 :=
  normalizeDiff_small (by norm_num) (by norm_num)

/-- Tick 1 of the bump scenario: walking forward at 1/10 into the box starts
a bump with stored bump velocity (0, 0, -3/20). -/
theorem bumpScenario_tick1 :
    update { initialState with position := ⟨0, 1, 29/20⟩, currentSpeed := 1/10 }
      ⟨true, false, false, false, false, false, false, false, false⟩ (1/60) 0
      ⟨0, 0, 1⟩ [⟨⟨⟨-1, 1, 2⟩, ⟨1, 3, 4⟩⟩, false⟩] CollisionResponse.bounce =
      { position := ⟨0, 1, 13/10⟩, velocity := ⟨0, 0, 1/10⟩, isJumping := false,
        jumpStartTime := 0, targetRotation := 0, currentRotation := 0,
        isSprinting := false, isCrouching := false, currentSpeed := 1/10,
        isBumping := true, bumpStartTime := 0, bumpVelocity := ⟨0, 0, -(3/20)⟩,
        controlsDisabled := true, controlsDisabledStartTime := 0 } := by
  norm_num [update, preCollision, controlsGate, movementPhase, bumpPhase,
    jumpTrigger, collisionPhase, jumpPhysics, rotationUpdate, stepSpeed,
    targetSpeedOf, sprintOf, assembleVelocity, forwardOf_e3, rightOf_e3,
    atan2_zero_one, normalizeDiff_zero, cc_bump_tick1, initialState, groundY,
    moveSpeed, sprintSpeed, mk_add_mk, mk_sub_mk, smul_mk,
    AvatarState.mk.injEq, Vector3.mk.injEq]

/-- Tick 2, at wall clock 1/10: the bump is active, controls are disabled,
the velocity is forced to the stored bump velocity and the avatar moves
backward. -/
theorem bumpScenario_tick2 :
    update
      { position := ⟨0, 1, 13/10⟩, velocity := ⟨0, 0, 1/10⟩, isJumping := false,
        jumpStartTime := 0, targetRotation := 0, currentRotation := 0,
        isSprinting := false, isCrouching := false, currentSpeed := 1/10,
        isBumping := true, bumpStartTime := 0, bumpVelocity := ⟨0, 0, -(3/20)⟩,
        controlsDisabled := true, controlsDisabledStartTime := 0 }
      ⟨true, false, false, false, false, false, false, false, false⟩ (1/60) (1/10)
      ⟨0, 0, 1⟩ [⟨⟨⟨-1, 1, 2⟩, ⟨1, 3, 4⟩⟩, false⟩] CollisionResponse.bounce =
      { position := ⟨0, 1, 23/20⟩, velocity := ⟨0, 0, -(3/20)⟩, isJumping := false,
        jumpStartTime := 0, targetRotation := 0, currentRotation := 0,
        isSprinting := false, isCrouching := false, currentSpeed := 1/10,
        isBumping := true, bumpStartTime := 0, bumpVelocity := ⟨0, 0, -(3/20)⟩,
        controlsDisabled := true, controlsDisabledStartTime := 0 } := by
  norm_num [update, preCollision, controlsGate, movementPhase, bumpPhase,
    jumpTrigger, collisionPhase, jumpPhysics, bumpDuration,
    controlsDisabledDuration, cc_bump_tick2, groundY, emptyKeys,
    mk_add_mk, mk_sub_mk, smul_mk, AvatarState.mk.injEq, Vector3.mk.injEq]

/-- Tick 3, at wall clock 3/10 (bumpDuration elapsed): the bump flag clears
and the stored bump velocity is zeroed, but the velocity field keeps the
stale bump velocity through the call and the avatar moves one more frame. -/
theorem bumpScenario_tick3 :
    update
      { position := ⟨0, 1, 23/20⟩, velocity := ⟨0, 0, -(3/20)⟩, isJumping := false,
        jumpStartTime := 0, targetRotation := 0, currentRotation := 0,
        isSprinting := false, isCrouching := false, currentSpeed := 1/10,
        isBumping := true, bumpStartTime := 0, bumpVelocity := ⟨0, 0, -(3/20)⟩,
        controlsDisabled := true, controlsDisabledStartTime := 0 }
      ⟨true, false, false, false, false, false, false, false, false⟩ (1/60) (3/10)
      ⟨0, 0, 1⟩ [⟨⟨⟨-1, 1, 2⟩, ⟨1, 3, 4⟩⟩, false⟩] CollisionResponse.bounce =
      { position := ⟨0, 1, 1⟩, velocity := ⟨0, 0, -(3/20)⟩, isJumping := false,
        jumpStartTime := 0, targetRotation := 0, currentRotation := 0,
        isSprinting := false, isCrouching := false, currentSpeed := 1/10,
        isBumping := false, bumpStartTime := 0, bumpVelocity := 0,
        controlsDisabled := false, controlsDisabledStartTime := 0 } := by
  norm_num [update, preCollision, controlsGate, movementPhase, bumpPhase,
    jumpTrigger, collisionPhase, jumpPhysics, bumpDuration,
    controlsDisabledDuration, cc_bump_tick3, groundY,
    mk_add_mk, mk_sub_mk, smul_mk, AvatarState.mk.injEq, Vector3.mk.injEq,
    show ((0 : Vector3) = ⟨0, 0, 0⟩) from rfl]

/-- C2 counterexample: in the concrete bump scenario (collision at wall
clock 0, bumpDuration 3/10), the call at wall clock 3/10 clears the bump
flag and the stored bump velocity, but the avatar velocity is NOT reset to
zero: it keeps the stale bump velocity (0, 0, -3/20) and the avatar moves
one extra frame by it. -/
theorem c2_expiry_velocity_counterexample :
    (update (update (update
        { initialState with position := ⟨0, 1, 29/20⟩, currentSpeed := 1/10 }
        ⟨true, false, false, false, false, false, false, false, false⟩ (1/60) 0
        ⟨0, 0, 1⟩ [⟨⟨⟨-1, 1, 2⟩, ⟨1, 3, 4⟩⟩, false⟩] CollisionResponse.bounce)
        ⟨true, false, false, false, false, false, false, false, false⟩ (1/60) (1/10)
        ⟨0, 0, 1⟩ [⟨⟨⟨-1, 1, 2⟩, ⟨1, 3, 4⟩⟩, false⟩] CollisionResponse.bounce)
        ⟨true, false, false, false, false, false, false, false, false⟩ (1/60) (3/10)
        ⟨0, 0, 1⟩ [⟨⟨⟨-1, 1, 2⟩, ⟨1, 3, 4⟩⟩, false⟩] CollisionResponse.bounce).isBumping
      = false ∧
    (update (update (update
        { initialState with position := ⟨0, 1, 29/20⟩, currentSpeed := 1/10 }
        ⟨true, false, false, false, false, false, false, false, false⟩ (1/60) 0
        ⟨0, 0, 1⟩ [⟨⟨⟨-1, 1, 2⟩, ⟨1, 3, 4⟩⟩, false⟩] CollisionResponse.bounce)
        ⟨true, false, false, false, false, false, false, false, false⟩ (1/60) (1/10)
        ⟨0, 0, 1⟩ [⟨⟨⟨-1, 1, 2⟩, ⟨1, 3, 4⟩⟩, false⟩] CollisionResponse.bounce)
        ⟨true, false, false, false, false, false, false, false, false⟩ (1/60) (3/10)
        ⟨0, 0, 1⟩ [⟨⟨⟨-1, 1, 2⟩, ⟨1, 3, 4⟩⟩, false⟩] CollisionResponse.bounce).bumpVelocity
      = 0 ∧
    (update (update (update
        { initialState with position := ⟨0, 1, 29/20⟩, currentSpeed := 1/10 }
        ⟨true, false, false, false, false, false, false, false, false⟩ (1/60) 0
        ⟨0, 0, 1⟩ [⟨⟨⟨-1, 1, 2⟩, ⟨1, 3, 4⟩⟩, false⟩] CollisionResponse.bounce)
        ⟨true, false, false, false, false, false, false, false, false⟩ (1/60) (1/10)
        ⟨0, 0, 1⟩ [⟨⟨⟨-1, 1, 2⟩, ⟨1, 3, 4⟩⟩, false⟩] CollisionResponse.bounce)
        ⟨true, false, false, false, false, false, false, false, false⟩ (1/60) (3/10)
        ⟨0, 0, 1⟩ [⟨⟨⟨-1, 1, 2⟩, ⟨1, 3, 4⟩⟩, false⟩] CollisionResponse.bounce).velocity
      ≠ 0 ∧
    (update { initialState with position := ⟨0, 1, 29/20⟩, currentSpeed := 1/10 }
        ⟨true, false, false, false, false, false, false, false, false⟩ (1/60) 0
        ⟨0, 0, 1⟩ [⟨⟨⟨-1, 1, 2⟩, ⟨1, 3, 4⟩⟩, false⟩] CollisionResponse.bounce).isBumping
      = true ∧
    (update { initialState with position := ⟨0, 1, 29/20⟩, currentSpeed := 1/10 }
        ⟨true, false, false, false, false, false, false, false, false⟩ (1/60) 0
        ⟨0, 0, 1⟩ [⟨⟨⟨-1, 1, 2⟩, ⟨1, 3, 4⟩⟩, false⟩] CollisionResponse.bounce).bumpVelocity
      = (-1.5 : ℝ) • ⟨0, 0, 1/10⟩ := by
  rw [bumpScenario_tick1, bumpScenario_tick2, bumpScenario_tick3]
  norm_num [smul_mk, Vector3.mk.injEq, Vector3.ext_iff]

theorem jumpTrigger_frame (st : AvatarState) (keys1 : Keys) (now : ℝ) :
    (jumpTrigger st keys1 now).position = st.position ∧
    (jumpTrigger st keys1 now).velocity = st.velocity ∧
    (jumpTrigger st keys1 now).isBumping = st.isBumping ∧
    (jumpTrigger st keys1 now).bumpStartTime = st.bumpStartTime ∧
    (jumpTrigger st keys1 now).bumpVelocity = st.bumpVelocity ∧
    (jumpTrigger st keys1 now).controlsDisabled = st.controlsDisabled ∧
    (jumpTrigger st keys1 now).controlsDisabledStartTime = st.controlsDisabledStartTime := by
  unfold jumpTrigger
  split <;> exact ⟨rfl, rfl, rfl, rfl, rfl, rfl, rfl⟩

theorem jumpPhysics_frame (st : AvatarState) (now : ℝ) :
    (jumpPhysics st now).velocity = st.velocity ∧
    (jumpPhysics st now).isBumping = st.isBumping ∧
    (jumpPhysics st now).bumpStartTime = st.bumpStartTime ∧
    (jumpPhysics st now).bumpVelocity = st.bumpVelocity ∧
    (jumpPhysics st now).controlsDisabled = st.controlsDisabled ∧
    (jumpPhysics st now).controlsDisabledStartTime = st.controlsDisabledStartTime := by
  unfold jumpPhysics
  dsimp only
  split
  · split <;> exact ⟨rfl, rfl, rfl, rfl, rfl, rfl⟩
  · exact ⟨rfl, rfl, rfl, rfl, rfl, rfl⟩

theorem bumpPhase_active {st : AvatarState} {now : ℝ}
    (h : now - st.bumpStartTime < bumpDuration) :
    bumpPhase st now = { st with velocity := st.bumpVelocity } := by
  unfold bumpPhase
  rw [if_neg (not_le.mpr h)]

theorem bumpPhase_expired {st : AvatarState} {now : ℝ}
    (h : bumpDuration ≤ now - st.bumpStartTime) :
    bumpPhase st now = { st with isBumping := false, bumpVelocity := 0 } := by
  unfold bumpPhase
  rw [if_pos h]

theorem bumpPhase_controlsDisabled (st : AvatarState) (now : ℝ) :
    (bumpPhase st now).controlsDisabled = st.controlsDisabled := by
  unfold bumpPhase
  split <;> rfl

theorem controlsGate_blocked {st : AvatarState} (keys : Keys) {now : ℝ}
    (hcd : st.controlsDisabled = true)
    (hlt : now - st.controlsDisabledStartTime < controlsDisabledDuration) :
    controlsGate st keys now = (true, emptyKeys) := by
  unfold controlsGate
  rw [if_pos hcd, if_neg (not_le.mpr hlt)]

theorem controlsGate_expired {st : AvatarState} (keys : Keys) {now : ℝ}
    (hcd : st.controlsDisabled = true)
    (hge : controlsDisabledDuration ≤ now - st.controlsDisabledStartTime) :
    controlsGate st keys now = (false, keys) := by
  unfold controlsGate
  rw [if_pos hcd, if_pos hge]

theorem controlsGate_enabled {st : AvatarState} (keys : Keys) {now : ℝ}
    (hcd : st.controlsDisabled = false) :
    controlsGate st keys now = (false, keys) := by
  unfold controlsGate
  rw [if_neg (by rw [hcd]; exact Bool.false_ne_true)]
  rw [hcd]

theorem preCollision_of_bumping {st : AvatarState} (keys : Keys)
    (deltaTime now : ℝ) (camDir : Vector3) (hb : st.isBumping = true) :
    preCollision st keys deltaTime now camDir =
      jumpTrigger
        (bumpPhase { st with controlsDisabled := (controlsGate st keys now).1 } now)
        (controlsGate st keys now).2 now := by
  unfold preCollision
  dsimp only
  rw [if_pos hb]

theorem collisionPhase_of_bumping (objects : List Collidable)
    (response : CollisionResponse) (now : ℝ) {st : AvatarState}
    (hb : st.isBumping = true) :
    collisionPhase st objects response now =
      { st with position := (checkCollision response objects
          (st.position + st.velocity) st.velocity).position } := by
  unfold collisionPhase
  simp [hb]

theorem collisionPhase_of_hit (objects : List Collidable)
    (response : CollisionResponse) (now : ℝ) {st : AvatarState}
    (hb : st.isBumping = false) (hcd : st.controlsDisabled = false)
    (hc : (checkCollision response objects (st.position + st.velocity)
        st.velocity).collisionDetected = true) :
    collisionPhase st objects response now =
      { st with
        position := (checkCollision response objects
          (st.position + st.velocity) st.velocity).position
        isBumping := true
        bumpStartTime := now
        bumpVelocity := (-1.5 : ℝ) • st.velocity
        controlsDisabled := true
        controlsDisabledStartTime := now } := by
  unfold collisionPhase
  simp [hb, hcd, hc]

theorem checkCollisionStep_cases (response : CollisionResponse)
    (position velocity : Vector3) (acc : Vector3 × Vector3 × Bool)
    (object : Collidable) :
    checkCollisionStep response position velocity acc object = acc ∨
    (checkCollisionStep response position velocity acc object).2.2 = true := by
  unfold checkCollisionStep
  rcases response <;> dsimp only <;> split_ifs <;> simp

theorem foldl_flag_monotone (response : CollisionResponse)
    (position velocity : Vector3) (objects : List Collidable) :
    ∀ acc : Vector3 × Vector3 × Bool, acc.2.2 = true →
      (List.foldl (checkCollisionStep response position velocity) acc objects).2.2
        = true := by
  induction objects with
  | nil => exact fun acc h => h
  | cons o l ih =>
      intro acc h
      simp only [List.foldl]
      rcases checkCollisionStep_cases response position velocity acc o with he | ht
      · rw [he]
        exact ih acc h
      · exact ih _ ht

theorem foldl_no_hit (response : CollisionResponse)
    (position velocity : Vector3) (objects : List Collidable) :
    ∀ acc : Vector3 × Vector3 × Bool,
      (List.foldl (checkCollisionStep response position velocity) acc objects).2.2
        = false →
      List.foldl (checkCollisionStep response position velocity) acc objects = acc := by
  induction objects with
  | nil => exact fun acc _ => rfl
  | cons o l ih =>
      intro acc h
      simp only [List.foldl] at h ⊢
      rcases checkCollisionStep_cases response position velocity acc o with he | ht
      · rw [he] at h ⊢
        exact ih acc h
      · rw [foldl_flag_monotone response position velocity l _ ht] at h
        cases h

/-- When no shape registers a hit, checkCollision hands back the inputs. -/
theorem checkCollision_not_detected (response : CollisionResponse)
    (objects : List Collidable) (position velocity : Vector3)
    (h : (checkCollision response objects position velocity).collisionDetected
      = false) :
    checkCollision response objects position velocity =
      ⟨position, velocity, false⟩ := by
  unfold checkCollision at h ⊢
  dsimp only at h ⊢
  split_ifs at h ⊢ with h0
  · rfl
  · rw [foldl_no_hit response position velocity objects _ h]

theorem collisionPhase_of_no_hit (objects : List Collidable)
    (response : CollisionResponse) (now : ℝ) {st : AvatarState}
    (hb : st.isBumping = false)
    (hnc : (checkCollision response objects (st.position + st.velocity)
        st.velocity).collisionDetected = false) :
    collisionPhase st objects response now =
      { st with position := st.position + st.velocity } := by
  unfold collisionPhase
  dsimp only
  rw [checkCollision_not_detected response objects _ _ hnc]
  simp [hb]

theorem preCollision_flags {st : AvatarState} (keys : Keys) (deltaTime now : ℝ)
    (camDir : Vector3) (hb : st.isBumping = false)
    (hcd : st.controlsDisabled = false) :
    (preCollision st keys deltaTime now camDir).isBumping = false ∧
    (preCollision st keys deltaTime now camDir).controlsDisabled = false := by
  unfold preCollision
  dsimp only
  rw [controlsGate_enabled keys hcd]
  rw [if_neg (by rw [hb]; exact Bool.false_ne_true)]
  obtain ⟨_, _, jb, _, _, jcd, _⟩ := jumpTrigger_frame
    (movementPhase { st with controlsDisabled := false } keys camDir deltaTime)
    keys now
  exact ⟨by rw [jb]; exact hb, by rw [jcd]; rfl⟩

theorem jumpPhysics_bumpStartTime (st : AvatarState) (now : ℝ) :
    (jumpPhysics st now).bumpStartTime = st.bumpStartTime := by
  unfold jumpPhysics
  dsimp only
  split
  · split <;> rfl
  · rfl

theorem jumpPhysics_bumpVelocity (st : AvatarState) (now : ℝ) :
    (jumpPhysics st now).bumpVelocity = st.bumpVelocity := by
  unfold jumpPhysics
  dsimp only
  split
  · split <;> rfl
  · rfl

theorem jumpPhysics_controlsDisabled (st : AvatarState) (now : ℝ) :
    (jumpPhysics st now).controlsDisabled = st.controlsDisabled := by
  unfold jumpPhysics
  dsimp only
  split
  · split <;> rfl
  · rfl

theorem jumpPhysics_controlsDisabledStartTime (st : AvatarState) (now : ℝ) :
    (jumpPhysics st now).controlsDisabledStartTime = st.controlsDisabledStartTime := by
  unfold jumpPhysics
  dsimp only
  split
  · split <;> rfl
  · rfl

theorem jumpTrigger_controlsDisabled (st : AvatarState) (keys1 : Keys) (now : ℝ) :
    (jumpTrigger st keys1 now).controlsDisabled = st.controlsDisabled := by
  unfold jumpTrigger
  split <;> rfl

theorem collisionPhase_controlsDisabled_of_disabled {st : AvatarState}
    (objects : List Collidable) (response : CollisionResponse) (now : ℝ)
    (h : st.controlsDisabled = true) :
    (collisionPhase st objects response now).controlsDisabled = true := by
  unfold collisionPhase
  dsimp only
  simp only [h, Bool.not_true, Bool.and_false, Bool.false_eq_true, if_false]
  split <;> rfl

/-- On a tick where the collision system reports a hit and the avatar is
neither bumping nor controls-disabled, the update starts the bump: flag set,
both timers started at now, stored bump velocity equal to -1.5 times the
movement velocity of this call. -/
theorem update_collision_starts_bump (st : AvatarState) (keys : Keys)
    (deltaTime now : ℝ) (camDir : Vector3) (objects : List Collidable)
    (response : CollisionResponse)
    (hb : st.isBumping = false) (hcd : st.controlsDisabled = false)
    (hc : (checkCollision response objects
        ((preCollision st keys deltaTime now camDir).position +
          (preCollision st keys deltaTime now camDir).velocity)
        (preCollision st keys deltaTime now camDir).velocity).collisionDetected
      = true) :
    (update st keys deltaTime now camDir objects response).isBumping = true ∧
    (update st keys deltaTime now camDir objects response).bumpStartTime = now ∧
    (update st keys deltaTime now camDir objects response).bumpVelocity
      = (-1.5 : ℝ) • (preCollision st keys deltaTime now camDir).velocity ∧
    (update st keys deltaTime now camDir objects response).controlsDisabled = true ∧
    (update st keys deltaTime now camDir objects response).controlsDisabledStartTime
      = now := by
  obtain ⟨hpb, hpcd⟩ := preCollision_flags keys deltaTime now camDir hb hcd
  unfold update
  rw [collisionPhase_of_hit objects response now hpb hpcd hc]
  refine ⟨?_, ?_, ?_, ?_, ?_⟩
  · rw [jumpPhysics_isBumping]
  · rw [jumpPhysics_bumpStartTime]
  · rw [jumpPhysics_bumpVelocity]
  · rw [jumpPhysics_controlsDisabled]
  · rw [jumpPhysics_controlsDisabledStartTime]

/-- While the bump timer runs, the update keeps the bump flag, forces the
velocity to the stored bump velocity and leaves the stored bump velocity
unchanged, whatever the keys, the camera and the registry do. -/
theorem update_during_bump (st : AvatarState) (keys : Keys) (deltaTime now : ℝ)
    (camDir : Vector3) (objects : List Collidable) (response : CollisionResponse)
    (hb : st.isBumping = true) (hlt : now - st.bumpStartTime < bumpDuration) :
    (update st keys deltaTime now camDir objects response).isBumping = true ∧
    (update st keys deltaTime now camDir objects response).velocity
      = st.bumpVelocity ∧
    (update st keys deltaTime now camDir objects response).bumpVelocity
      = st.bumpVelocity := by
  unfold update
  rw [preCollision_of_bumping keys deltaTime now camDir hb]
  set st1 := { st with controlsDisabled := (controlsGate st keys now).1 } with hst1
  rw [bumpPhase_active (show now - st1.bumpStartTime < bumpDuration from hlt)]
  set st2 := { st1 with velocity := st1.bumpVelocity } with hst2
  set k1 := (controlsGate st keys now).2 with hk1
  obtain ⟨jp, jv, jb, jbs, jbv, jcd, jcds⟩ := jumpTrigger_frame st2 k1 now
  have h3b : (jumpTrigger st2 k1 now).isBumping = true := by
    rw [jb]
    exact hb
  rw [collisionPhase_of_bumping objects response now h3b]
  refine ⟨?_, ?_, ?_⟩
  · rw [jumpPhysics_isBumping]
    exact h3b
  · rw [jumpPhysics_velocity]
    exact jv
  · rw [jumpPhysics_bumpVelocity]
    exact jbv

/-- On the tick where the bump timer has elapsed (and no new collision is
reported), the update clears the bump flag and zeroes the stored bump
velocity, but the avatar velocity is NOT reset: it keeps the stale value it
had entering the call (the bump velocity applied on the previous tick) and
is adopted from the collision result unchanged. -/
theorem update_bump_expiry (st : AvatarState) (keys : Keys) (deltaTime now : ℝ)
    (camDir : Vector3) (objects : List Collidable) (response : CollisionResponse)
    (hb : st.isBumping = true) (hge : bumpDuration ≤ now - st.bumpStartTime)
    (hnc : (checkCollision response objects (st.position + st.velocity)
        st.velocity).collisionDetected = false) :
    (update st keys deltaTime now camDir objects response).isBumping = false ∧
    (update st keys deltaTime now camDir objects response).bumpVelocity = 0 ∧
    (update st keys deltaTime now camDir objects response).velocity
      = st.velocity := by
  unfold update
  rw [preCollision_of_bumping keys deltaTime now camDir hb]
  set st1 := { st with controlsDisabled := (controlsGate st keys now).1 } with hst1
  rw [bumpPhase_expired (show bumpDuration ≤ now - st1.bumpStartTime from hge)]
  set st2 := { st1 with isBumping := false, bumpVelocity := 0 } with hst2
  set k1 := (controlsGate st keys now).2 with hk1
  obtain ⟨jp, jv, jb, jbs, jbv, jcd, jcds⟩ := jumpTrigger_frame st2 k1 now
  have h3b : (jumpTrigger st2 k1 now).isBumping = false := by
    rw [jb]
  have h3nc : (checkCollision response objects
      ((jumpTrigger st2 k1 now).position + (jumpTrigger st2 k1 now).velocity)
      (jumpTrigger st2 k1 now).velocity).collisionDetected = false := by
    rw [jp, jv]
    exact hnc
  rw [collisionPhase_of_no_hit objects response now h3b h3nc]
  refine ⟨?_, ?_, ?_⟩
  · rw [jumpPhysics_isBumping]
    exact h3b
  · rw [jumpPhysics_bumpVelocity]
    exact jbv
  · rw [jumpPhysics_velocity]
    exact jv

/-- While the controls-disabled timer runs, the key snapshot is irrelevant
(the update treats it as empty) and controls remain disabled after the
call; its duration is measured from controlsDisabledStartTime against
controlsDisabledDuration, independently of the bump timer. -/
theorem update_controls_blocked (st : AvatarState) (keys keys2 : Keys)
    (deltaTime now : ℝ) (camDir : Vector3) (objects : List Collidable)
    (response : CollisionResponse) (hcd : st.controlsDisabled = true)
    (hlt : now - st.controlsDisabledStartTime < controlsDisabledDuration) :
    update st keys deltaTime now camDir objects response
      = update st keys2 deltaTime now camDir objects response ∧
    (update st keys deltaTime now camDir objects response).controlsDisabled
      = true := by
  constructor
  · unfold update preCollision
    rw [controlsGate_blocked keys hcd hlt, controlsGate_blocked keys2 hcd hlt]
  · have h1 : (preCollision st keys deltaTime now camDir).controlsDisabled = true := by
      unfold preCollision
      dsimp only
      rw [controlsGate_blocked keys hcd hlt]
      rw [jumpTrigger_controlsDisabled]
      dsimp only
      split
      · rw [bumpPhase_controlsDisabled]
      · rfl
    unfold update
    rw [jumpPhysics_controlsDisabled]
    exact collisionPhase_controlsDisabled_of_disabled objects response now h1

/-- C2 amended: the bump sequence as the code implements it.  On the
collision tick (not bumping, controls enabled) a bump starts with stored
bump velocity -1.5 times the movement velocity of that call and both the
bump timer and the controls-disabled timer start at the current wall clock.
On every later call while now minus bumpStartTime is below bumpDuration the
bump flag holds, the avatar velocity is forced to the stored bump velocity
and the stored bump velocity is unchanged.  Once bumpDuration has elapsed
the bump flag clears and the STORED bump velocity is zeroed, but the avatar
velocity is not reset to zero: it keeps the stale value it entered the call
with (the bump velocity applied on the preceding tick) and the avatar
travels one extra frame by it; the velocity field is only rebuilt from the
keys at the next non-bumping call.  Controls stay disabled exactly while
now minus controlsDisabledStartTime is below controlsDisabledDuration
(during which the key snapshot is ignored), measured independently of the
bump timer. -/
theorem c2_bump_sequence_amended :
    (∀ (st : AvatarState) (keys : Keys) (deltaTime now : ℝ) (camDir : Vector3)
        (objects : List Collidable) (response : CollisionResponse),
      st.isBumping = false → st.controlsDisabled = false →
      (checkCollision response objects
          ((preCollision st keys deltaTime now camDir).position +
            (preCollision st keys deltaTime now camDir).velocity)
          (preCollision st keys deltaTime now camDir).velocity).collisionDetected
        = true →
      (update st keys deltaTime now camDir objects response).isBumping = true ∧
      (update st keys deltaTime now camDir objects response).bumpStartTime = now ∧
      (update st keys deltaTime now camDir objects response).bumpVelocity
        = (-1.5 : ℝ) • (preCollision st keys deltaTime now camDir).velocity ∧
      (update st keys deltaTime now camDir objects response).controlsDisabled = true ∧
      (update st keys deltaTime now camDir objects
        response).controlsDisabledStartTime = now) ∧
    (∀ (st : AvatarState) (keys : Keys) (deltaTime now : ℝ) (camDir : Vector3)
        (objects : List Collidable) (response : CollisionResponse),
      st.isBumping = true → now - st.bumpStartTime < bumpDuration →
      (update st keys deltaTime now camDir objects response).isBumping = true ∧
      (update st keys deltaTime now camDir objects response).velocity
        = st.bumpVelocity ∧
      (update st keys deltaTime now camDir objects response).bumpVelocity
        = st.bumpVelocity) ∧
    (∀ (st : AvatarState) (keys : Keys) (deltaTime now : ℝ) (camDir : Vector3)
        (objects : List Collidable) (response : CollisionResponse),
      st.isBumping = true → bumpDuration ≤ now - st.bumpStartTime →
      (checkCollision response objects (st.position + st.velocity)
          st.velocity).collisionDetected = false →
      (update st keys deltaTime now camDir objects response).isBumping = false ∧
      (update st keys deltaTime now camDir objects response).bumpVelocity = 0 ∧
      (update st keys deltaTime now camDir objects response).velocity
        = st.velocity) ∧
    (∀ (st : AvatarState) (keys keys2 : Keys) (deltaTime now : ℝ)
        (camDir : Vector3) (objects : List Collidable)
        (response : CollisionResponse),
      st.controlsDisabled = true →
      now - st.controlsDisabledStartTime < controlsDisabledDuration →
      update st keys deltaTime now camDir objects response
        = update st keys2 deltaTime now camDir objects response ∧
      (update st keys deltaTime now camDir objects response).controlsDisabled
        = true) ∧
    (∀ (st : AvatarState) (keys : Keys) (now : ℝ),
      st.controlsDisabled = true →
      controlsDisabledDuration ≤ now - st.controlsDisabledStartTime →
      controlsGate st keys now = (false, keys)) := by
  refine ⟨?_, ?_, ?_, ?_, ?_⟩
  · intro st keys deltaTime now camDir objects response hb hcd hc
    exact update_collision_starts_bump st keys deltaTime now camDir objects
      response hb hcd hc
  · intro st keys deltaTime now camDir objects response hb hlt
    exact update_during_bump st keys deltaTime now camDir objects response hb hlt
  · intro st keys deltaTime now camDir objects response hb hge hnc
    exact update_bump_expiry st keys deltaTime now camDir objects response hb hge hnc
  · intro st keys keys2 deltaTime now camDir objects response hcd hlt
    exact update_controls_blocked st keys keys2 deltaTime now camDir objects
      response hcd hlt
  · intro st keys now hcd hge
    exact controlsGate_expired keys hcd hge
